import Mathlib

/-!
ConnectionGraphicsObject: event handlers

A shallow embedding of the event handlers of `src/ConnectionGraphicsObject.cpp`
(`mouseMoveEvent`, `mouseReleaseEvent`, `hoverEnterEvent`, `hoverLeaveEvent`).

The handlers are glue code over collaborator objects (scene, connection, node,
node-connection interaction, toolkit item).  The collaborators are not part of the
translation unit, so they are taken as a parameter: a record of functions over an
abstract world state `σ`.  `const` queries read the state, mutating calls return a
new state.  Each handler threads the state through its calls in source order and
records in a call log every mutating call it issues and every call it makes through
a node pointer.  Debug output (`qInfo`) has no effect on the world and is left out.
-/

namespace QtNodes

/-! ## Value types used by the handlers -/

/-- Coordinates (`qreal`), taken in exact arithmetic. -/
abbrev qreal := ℚ

/-- The toolkit's `QString`. -/
abbrev QString := String

/-- A point with `qreal` coordinates (`QPointF`). -/
structure QPointF where
  x : qreal
  y : qreal
deriving DecidableEq

/-- Componentwise difference, `QPointF::operator-`. -/
instance : Sub QPointF := ⟨fun p q => ⟨p.x - q.x, p.y - q.y⟩⟩

/-- Componentwise sum, `QPointF::operator+`. -/
instance : Add QPointF := ⟨fun p q => ⟨p.x + q.x, p.y + q.y⟩⟩

/-- A point with integer coordinates (`QPoint`, used for screen positions). -/
structure QPoint where
  x : Int
  y : Int
deriving DecidableEq

/-- A 3x3 coordinate transform (`QTransform`); the handlers only pass it on. -/
structure QTransform where
  m11 : qreal
  m12 : qreal
  m13 : qreal
  m21 : qreal
  m22 : qreal
  m23 : qreal
  m31 : qreal
  m32 : qreal
  m33 : qreal
deriving DecidableEq

/-- A view onto the scene; the handlers only read its `transform()`. -/
structure QGraphicsView where
  transform : QTransform
deriving DecidableEq

/-- The port kinds named by the source: `PortType::In`, `PortType::Out`, `PortType::None`. -/
inductive PortType where
  | None
  | In
  | Out
deriving DecidableEq

/-- The data type carried by a port or a connection; the handlers read its `id`. -/
structure NodeDataType where
  id : QString
  name : QString
deriving DecidableEq

/-- Identity of a node object. -/
abbrev Node := Nat

/-- A `Node*`: either null (`none`) or the address of a node. -/
abbrev NodePtr := Option Node

/-- Identity of a connection object. -/
abbrev Connection := Nat

/-- The data model of a node, as far as `mouseReleaseEvent` uses it:
`nPorts(portType)` as stored into `int nbp`, and `dataType(portType, index)`. -/
structure NodeDataModel where
  nPorts : PortType → Int
  dataType : PortType → Int → NodeDataType

/-- The helper object `NodeConnectionInteraction(node, connection, scene)`:
it keeps the node and the connection it was built from.  Building it from `*node`
only binds the reference, so the node kept may be the null pointer. -/
structure NodeConnectionInteraction where
  _node : NodePtr
  _connection : Connection
deriving DecidableEq

/-- The mouse event fields read by the handlers.  `widget` is the originating view,
which `mouseMoveEvent` dereferences unchecked. -/
structure QGraphicsSceneMouseEvent where
  pos : QPointF
  lastPos : QPointF
  scenePos : QPointF
  widget : QGraphicsView
deriving DecidableEq

/-- The hover event field read by the handlers. -/
structure QGraphicsSceneHoverEvent where
  screenPos : QPoint
deriving DecidableEq

/-- The graphics object: its members `_scene` (the world state) and `_connection`. -/
structure ConnectionGraphicsObject where
  _connection : Connection
deriving DecidableEq

/-! ## Collaborators and the call log -/

/-- One call issued by a handler, with its receiver and arguments: the mutating calls,
and the two queries made through a node pointer. -/
inductive Call where
  | ungrabMouse
  | accept
  | prepareGeometryChange
  | update
  | interactWithNode (conn : Connection) (node : NodePtr)
  | reactToPossibleConnection (node : NodePtr) (port : PortType)
      (dataType : NodeDataType) (scenePos : QPointF)
  | moveEndPoint (conn : Connection) (port : PortType) (offset : QPointF)
  | createNode (created : NodePtr)
  | nodeDataModel (node : NodePtr)
  | portScenePosition (node : NodePtr) (index : Int) (port : PortType)
  | setPos (node : NodePtr) (pos : QPointF)
  | tryConnect (interaction : NodeConnectionInteraction)
  | resetReactionToConnection (node : NodePtr)
  | deleteConnection (conn : Connection)
  | setHovered (conn : Connection) (hovered : Bool)
  | connectionHovered (conn : Connection) (screenPos : QPoint)
  | connectionHoverLeft (conn : Connection)
deriving DecidableEq

/-- The collaborator interface consumed by the handlers, over a world state `σ`. -/
structure Collaborators (σ : Type) where
  /-- `QGraphicsItem::ungrabMouse()` on this item. -/
  ungrabMouse : σ → σ
  /-- `QGraphicsItem::prepareGeometryChange()` on this item. -/
  prepareGeometryChange : σ → σ
  /-- `QGraphicsItem::update()` on this item. -/
  update : σ → σ
  /-- `event->accept()`. -/
  accept : σ → σ
  /-- `_scene.views()`. -/
  views : σ → List QGraphicsView
  /-- `locateNodeAt(scenePos, _scene, viewTransform)`. -/
  locateNodeAt : σ → QPointF → QTransform → NodePtr
  /-- `_scene.registry().create(modelName)`; `none` is the null pointer. -/
  registryCreate : σ → QString → Option NodeDataModel
  /-- `_scene.createNode(std::move(type))`, returning the new node. -/
  createNode : σ → NodeDataModel → Node × σ
  /-- `_scene.deleteConnection(connection)`. -/
  deleteConnection : σ → Connection → σ
  /-- `_scene.connectionHovered(connection, screenPos)`. -/
  connectionHovered : σ → Connection → QPoint → σ
  /-- `_scene.connectionHoverLeft(connection)`. -/
  connectionHoverLeft : σ → Connection → σ
  /-- `connection.requiredPort()`. -/
  requiredPort : σ → Connection → PortType
  /-- `connection.dataType()`. -/
  dataType : σ → Connection → NodeDataType
  /-- `connection.connectionState().requiredPort()`. -/
  stateRequiredPort : σ → Connection → PortType
  /-- `connection.connectionState().requiresPort()`. -/
  requiresPort : σ → Connection → Bool
  /-- `connection.connectionState().interactWithNode(node)`. -/
  interactWithNode : σ → Connection → NodePtr → σ
  /-- `connection.connectionGeometry().moveEndPoint(portType, offset)`. -/
  moveEndPoint : σ → Connection → PortType → QPointF → σ
  /-- `connection.connectionGeometry().setHovered(hovered)`. -/
  setHovered : σ → Connection → Bool → σ
  /-- `connection.connectionGeometry().hovered()`. -/
  hovered : σ → Connection → Bool
  /-- `node->reactToPossibleConnection(portType, dataType, scenePos)`. -/
  reactToPossibleConnection : σ → NodePtr → PortType → NodeDataType → QPointF → σ
  /-- `node->resetReactionToConnection()`. -/
  resetReactionToConnection : σ → NodePtr → σ
  /-- `node->nodeDataModel()`. -/
  nodeDataModel : σ → NodePtr → NodeDataModel
  /-- `node->nodeGeometry().portScenePosition(index, portType)`. -/
  portScenePosition : σ → NodePtr → Int → PortType → QPointF
  /-- `node->nodeGraphicsObject().setPos(pos)`. -/
  setPos : σ → NodePtr → QPointF → σ
  /-- `interaction.tryConnect()`. -/
  tryConnect : σ → NodeConnectionInteraction → Bool × σ

/-- A handler run so far: the calls issued, in order, and the current world state. -/
structure Run (σ : Type) where
  log : List Call
  state : σ

/-- Issue a mutating call: append it to the log and apply its effect. -/
def Run.call {σ : Type} (r : Run σ) (c : Call) (f : σ → σ) : Run σ :=
  ⟨r.log ++ [c], f r.state⟩

/-! ## The port scan of `mouseReleaseEvent` -/

/-- The loop `int pid = 0; for (int i = 0; i < nbp; i++) if (ndm->dataType(Out, i).id == id) pid = i;`
with `nbp = ndm->nPorts(Out)`. -/
def portScan (ndm : NodeDataModel) (id : QString) : Int :=
  (List.range (ndm.nPorts PortType.Out).toNat).foldl
    (fun (pid : Int) (i : Nat) =>
      if (ndm.dataType PortType.Out (i : Int)).id == id then (i : Int) else pid) 0

/-! ## Handlers -/

/-- `ConnectionGraphicsObject::mouseReleaseEvent`.  `ALTAG` is the build flag of the same name.
The result is `none` when `_scene.views()[0]` does not exist. -/
def mouseReleaseEvent {σ : Type} (c : Collaborators σ) (ALTAG : Bool)
    (self : ConnectionGraphicsObject) (event : QGraphicsSceneMouseEvent) (s : σ) :
    Option (Run σ) :=
  let r : Run σ := ⟨[], s⟩
  let r := r.call Call.ungrabMouse c.ungrabMouse
  let r := r.call Call.accept c.accept
  match c.views r.state with
  | [] => none
  | view0 :: _ =>
    let node : NodePtr := c.locateNodeAt r.state event.scenePos view0.transform
    let interaction : NodeConnectionInteraction := ⟨node, self._connection⟩
    let altag := ALTAG
    if altag && node.isNone && c.requiredPort r.state self._connection == PortType.Out then
      let modelName := (c.dataType r.state self._connection).id
      match c.registryCreate r.state modelName with
      | some type =>
        let created := c.createNode r.state type
        let nodeCrea : NodePtr := some created.1
        let r : Run σ := ⟨r.log ++ [Call.createNode nodeCrea], created.2⟩
        let ndm := c.nodeDataModel r.state nodeCrea
        let r : Run σ := ⟨r.log ++ [Call.nodeDataModel nodeCrea], r.state⟩
        let pid := portScan ndm (c.dataType r.state self._connection).id
        let pos := c.portScenePosition r.state nodeCrea pid PortType.Out
        let r : Run σ := ⟨r.log ++ [Call.portScenePosition nodeCrea pid PortType.Out], r.state⟩
        let evPos := event.scenePos
        let newPos : QPointF := ⟨evPos.x - pos.x, evPos.y - pos.y⟩
        let r := r.call (Call.setPos nodeCrea newPos) (fun w => c.setPos w nodeCrea newPos)
        let interactionCrea : NodeConnectionInteraction := ⟨nodeCrea, self._connection⟩
        let tried := c.tryConnect r.state interactionCrea
        some ⟨r.log ++ [Call.tryConnect interactionCrea], tried.2⟩
      | none =>
        some (r.call (Call.deleteConnection self._connection)
          (fun w => c.deleteConnection w self._connection))
    else
      -- `node && interaction.tryConnect()`: the right operand runs only for a non-null node
      let tried : Bool × Run σ :=
        if node.isSome then
          let t := c.tryConnect r.state interaction
          (t.1, ⟨r.log ++ [Call.tryConnect interaction], t.2⟩)
        else (false, r)
      let r := tried.2
      if tried.1 then
        some (r.call (Call.resetReactionToConnection node)
          (fun w => c.resetReactionToConnection w node))
      else if c.requiresPort r.state self._connection then
        some (r.call (Call.deleteConnection self._connection)
          (fun w => c.deleteConnection w self._connection))
      else
        some r

/-- The first section of `ConnectionGraphicsObject::mouseMoveEvent` (up to the first
separator line): locate the node under the cursor and let it react. -/
def mouseMoveEvent_interact {σ : Type} (c : Collaborators σ)
    (self : ConnectionGraphicsObject) (event : QGraphicsSceneMouseEvent) (s : σ) : Run σ :=
  let r : Run σ := ⟨[], s⟩
  let r := r.call Call.prepareGeometryChange c.prepareGeometryChange
  let view := event.widget
  let node : NodePtr := c.locateNodeAt r.state event.scenePos view.transform
  -- `auto &state = _connection.connectionState();`
  let r := r.call (Call.interactWithNode self._connection node)
    (fun w => c.interactWithNode w self._connection node)
  if node.isSome then
    let port := c.stateRequiredPort r.state self._connection
    let dataType := c.dataType r.state self._connection
    r.call (Call.reactToPossibleConnection node port dataType event.scenePos)
      (fun w => c.reactToPossibleConnection w node port dataType event.scenePos)
  else
    r

/-- `ConnectionGraphicsObject::mouseMoveEvent`: the first section, then the end point
move, then `update()` and `event->accept()`. -/
def mouseMoveEvent {σ : Type} (c : Collaborators σ)
    (self : ConnectionGraphicsObject) (event : QGraphicsSceneMouseEvent) (s : σ) : Run σ :=
  let r := mouseMoveEvent_interact c self event s
  let offset : QPointF := event.pos - event.lastPos
  let requiredPort := c.requiredPort r.state self._connection
  let r :=
    if requiredPort != PortType.None then
      r.call (Call.moveEndPoint self._connection requiredPort offset)
        (fun w => c.moveEndPoint w self._connection requiredPort offset)
    else
      r
  let r := r.call Call.update c.update
  r.call Call.accept c.accept

/-- `ConnectionGraphicsObject::hoverEnterEvent`. -/
def hoverEnterEvent {σ : Type} (c : Collaborators σ)
    (self : ConnectionGraphicsObject) (event : QGraphicsSceneHoverEvent) (s : σ) : Run σ :=
  let r : Run σ := ⟨[], s⟩
  let r := r.call (Call.setHovered self._connection true)
    (fun w => c.setHovered w self._connection true)
  let r := r.call Call.update c.update
  let r := r.call (Call.connectionHovered self._connection event.screenPos)
    (fun w => c.connectionHovered w self._connection event.screenPos)
  r.call Call.accept c.accept

/-- `ConnectionGraphicsObject::hoverLeaveEvent`. -/
def hoverLeaveEvent {σ : Type} (c : Collaborators σ)
    (self : ConnectionGraphicsObject) (_event : QGraphicsSceneHoverEvent) (s : σ) : Run σ :=
  let r : Run σ := ⟨[], s⟩
  let r := r.call (Call.setHovered self._connection false)
    (fun w => c.setHovered w self._connection false)
  let r := r.call Call.update c.update
  let r := r.call (Call.connectionHoverLeft self._connection)
    (fun w => c.connectionHoverLeft w self._connection)
  r.call Call.accept c.accept

/-! ## Sequences of hover events -/

/-- A hover event delivered to the object, tagged with the handler that receives it. -/
inductive HoverEvent where
  | enter (event : QGraphicsSceneHoverEvent)
  | leave (event : QGraphicsSceneHoverEvent)
deriving DecidableEq

/-- Whether the event is delivered to `hoverEnterEvent`. -/
def HoverEvent.isEnter : HoverEvent → Bool
  | HoverEvent.enter _ => true
  | HoverEvent.leave _ => false

/-- Dispatch one hover event to its handler. -/
def hoverEvent {σ : Type} (c : Collaborators σ) (self : ConnectionGraphicsObject)
    (e : HoverEvent) (s : σ) : Run σ :=
  match e with
  | HoverEvent.enter event => hoverEnterEvent c self event s
  | HoverEvent.leave event => hoverLeaveEvent c self event s

/-- Deliver a sequence of hover events in order, continuing the run `r`. -/
def deliverHover {σ : Type} (c : Collaborators σ) (self : ConnectionGraphicsObject) :
    List HoverEvent → Run σ → Run σ
  | [], r => r
  | e :: es, r =>
    let r1 := hoverEvent c self e r.state
    deliverHover c self es ⟨r.log ++ r1.log, r1.state⟩

/-- The scene notification that a hover event is to produce. -/
def hoverNotification (self : ConnectionGraphicsObject) : HoverEvent → Call
  | HoverEvent.enter event => Call.connectionHovered self._connection event.screenPos
  | HoverEvent.leave _ => Call.connectionHoverLeft self._connection

/-! ## Classifying log entries -/

/-- The entry is a `deleteConnection` call. -/
def Call.isDeleteConnection : Call → Bool
  | Call.deleteConnection _ => true
  | _ => false

/-- The entry is a `createNode` call. -/
def Call.isCreateNode : Call → Bool
  | Call.createNode _ => true
  | _ => false

/-- The entry is a `tryConnect` call. -/
def Call.isTryConnect : Call → Bool
  | Call.tryConnect _ => true
  | _ => false

/-- The entry is a `resetReactionToConnection` call. -/
def Call.isResetReaction : Call → Bool
  | Call.resetReactionToConnection _ => true
  | _ => false

/-- The entry is a `moveEndPoint` call. -/
def Call.isMoveEndPoint : Call → Bool
  | Call.moveEndPoint _ _ _ => true
  | _ => false

/-- The entry is a `setPos` call. -/
def Call.isSetPos : Call → Bool
  | Call.setPos _ _ => true
  | _ => false

/-- The entry is a scene hover notification. -/
def Call.isHoverNotification : Call → Bool
  | Call.connectionHovered _ _ => true
  | Call.connectionHoverLeft _ => true
  | _ => false

/-- The entry is a call made through the given node pointer, or a `tryConnect` on an
interaction built from it. -/
def Call.usesNode (p : NodePtr) : Call → Bool
  | Call.reactToPossibleConnection node _ _ _ => node == p
  | Call.nodeDataModel node => node == p
  | Call.portScenePosition node _ _ => node == p
  | Call.setPos node _ => node == p
  | Call.resetReactionToConnection node => node == p
  | Call.tryConnect interaction => interaction._node == p
  | _ => false

/-- Frame conditions on the collaborators for the geometry's hovered flag: `setHovered`
stores the flag that `hovered` reads, and repainting, accepting the event and the two
scene notifications leave it alone. -/
structure HoverFlagLaws {σ : Type} (c : Collaborators σ) : Prop where
  hovered_setHovered : ∀ s conn b, c.hovered (c.setHovered s conn b) conn = b
  hovered_update : ∀ s conn, c.hovered (c.update s) conn = c.hovered s conn
  hovered_accept : ∀ s conn, c.hovered (c.accept s) conn = c.hovered s conn
  hovered_connectionHovered : ∀ s conn conn1 p,
    c.hovered (c.connectionHovered s conn1 p) conn = c.hovered s conn
  hovered_connectionHoverLeft : ∀ s conn conn1,
    c.hovered (c.connectionHoverLeft s conn1) conn = c.hovered s conn

/-! ## The hovered flag of the connection geometry -/

/-- Modelled from the spec: the connection's geometry object (`ConnectionGeometry`, declared
in a header outside this translation unit), as far as hovering goes: a hovered flag that
`setHovered` stores and `hovered` reads. -/
structure ConnectionGeometry where
  _hovered : Bool
deriving DecidableEq

/-- Modelled from the spec: `ConnectionGeometry::setHovered` stores the flag. -/
def ConnectionGeometry.setHovered (g : ConnectionGeometry) (flag : Bool) : ConnectionGeometry :=
  { g with _hovered := flag }

/-- Modelled from the spec: `ConnectionGeometry::hovered` reads the flag. -/
def ConnectionGeometry.hovered (g : ConnectionGeometry) : Bool :=
  g._hovered

/-- A world that holds the geometry of every connection next to the rest of the world. -/
structure HoverWorld (σ : Type) where
  geometry : Connection → ConnectionGeometry
  scene : σ

/-- Collaborators over `HoverWorld`: `setHovered` and `hovered` go to the geometry of the
connection they are called on, every other collaborator acts on the rest of the world as
the given one does. -/
def withGeometry {σ : Type} (c : Collaborators σ) : Collaborators (HoverWorld σ) where
  ungrabMouse := fun w => { w with scene := c.ungrabMouse w.scene }
  prepareGeometryChange := fun w => { w with scene := c.prepareGeometryChange w.scene }
  update := fun w => { w with scene := c.update w.scene }
  accept := fun w => { w with scene := c.accept w.scene }
  views := fun w => c.views w.scene
  locateNodeAt := fun w p t => c.locateNodeAt w.scene p t
  registryCreate := fun w name => c.registryCreate w.scene name
  createNode := fun w type =>
    ((c.createNode w.scene type).1, { w with scene := (c.createNode w.scene type).2 })
  deleteConnection := fun w conn => { w with scene := c.deleteConnection w.scene conn }
  connectionHovered := fun w conn p => { w with scene := c.connectionHovered w.scene conn p }
  connectionHoverLeft := fun w conn => { w with scene := c.connectionHoverLeft w.scene conn }
  requiredPort := fun w conn => c.requiredPort w.scene conn
  dataType := fun w conn => c.dataType w.scene conn
  stateRequiredPort := fun w conn => c.stateRequiredPort w.scene conn
  requiresPort := fun w conn => c.requiresPort w.scene conn
  interactWithNode := fun w conn node => { w with scene := c.interactWithNode w.scene conn node }
  moveEndPoint := fun w conn port offset =>
    { w with scene := c.moveEndPoint w.scene conn port offset }
  setHovered := fun w conn flag =>
    { w with geometry := Function.update w.geometry conn ((w.geometry conn).setHovered flag) }
  hovered := fun w conn => (w.geometry conn).hovered
  reactToPossibleConnection := fun w node port dataType pos =>
    { w with scene := c.reactToPossibleConnection w.scene node port dataType pos }
  resetReactionToConnection := fun w node =>
    { w with scene := c.resetReactionToConnection w.scene node }
  nodeDataModel := fun w node => c.nodeDataModel w.scene node
  portScenePosition := fun w node index port => c.portScenePosition w.scene node index port
  setPos := fun w node pos => { w with scene := c.setPos w.scene node pos }
  tryConnect := fun w interaction =>
    ((c.tryConnect w.scene interaction).1,
      { w with scene := (c.tryConnect w.scene interaction).2 })

/-! ## A small concrete world -/

/-- A concrete world state used to run the handlers on explicit inputs. -/
structure DemoWorld where
  located : NodePtr
  required : PortType
  registered : Bool
  connects : Bool
  model : NodeDataModel
  nodes : Nat
  hovered : Bool
  connectionAlive : Bool
  placed : Option QPointF
  notified : Nat
  reactionsReset : Nat

/-- Collaborators over `DemoWorld`: one view, a connection of data type `A`, a registry
that knows the model named `A` when `registered` is set.  The world counts the nodes
created, the scene hover notifications and the reaction resets, and remembers the last
position given to `setPos` and whether the connection is still in the scene. -/
def demo : Collaborators DemoWorld where
  ungrabMouse := fun w => w
  prepareGeometryChange := fun w => w
  update := fun w => w
  accept := fun w => w
  views := fun _ => [⟨⟨1, 0, 0, 0, 1, 0, 0, 0, 1⟩⟩]
  locateNodeAt := fun w _ _ => w.located
  registryCreate := fun w name => if w.registered && name == "A" then some w.model else none
  createNode := fun w _ => (w.nodes, { w with nodes := w.nodes + 1 })
  deleteConnection := fun w _ => { w with connectionAlive := false }
  connectionHovered := fun w _ _ => { w with notified := w.notified + 1 }
  connectionHoverLeft := fun w _ => { w with notified := w.notified + 1 }
  requiredPort := fun w _ => w.required
  dataType := fun _ _ => ⟨"A", "A"⟩
  stateRequiredPort := fun w _ => w.required
  requiresPort := fun w _ => w.required != PortType.None
  interactWithNode := fun w _ _ => w
  moveEndPoint := fun w _ _ _ => w
  setHovered := fun w _ b => { w with hovered := b }
  hovered := fun w _ => w.hovered
  reactToPossibleConnection := fun w _ _ _ _ => w
  resetReactionToConnection := fun w _ => { w with reactionsReset := w.reactionsReset + 1 }
  nodeDataModel := fun w _ => w.model
  portScenePosition := fun _ _ index _ => ⟨100, 20 * index + 10⟩
  setPos := fun w _ pos => { w with placed := some pos }
  tryConnect := fun w _ => (w.connects, if w.connects then { w with required := PortType.None } else w)

/-- A node model with three Out ports of data types `B`, `A`, `A` and one In port. -/
def demoModelAB : NodeDataModel where
  nPorts := fun p => match p with
    | PortType.Out => 3
    | PortType.In => 1
    | PortType.None => 0
  dataType := fun _ i => if i = 0 then ⟨"B", "B"⟩ else ⟨"A", "A"⟩

/-- A node model with two Out ports of data types `B` and `C`: none carries `A`. -/
def demoModelBC : NodeDataModel where
  nPorts := fun p => match p with
    | PortType.Out => 2
    | PortType.In => 0
    | PortType.None => 0
  dataType := fun _ i => if i = 0 then ⟨"B", "B"⟩ else ⟨"C", "C"⟩

/-- A world with an unfinished connection that requires an Out port, nothing under the cursor. -/
def demoWorld : DemoWorld where
  located := none
  required := PortType.Out
  registered := true
  connects := false
  model := demoModelAB
  nodes := 0
  hovered := false
  connectionAlive := true
  placed := none
  notified := 0
  reactionsReset := 0

/-- The same world with a registry model whose Out ports carry `B` and `C` only. -/
def demoWorldBC : DemoWorld := { demoWorld with model := demoModelBC }

/-- The same world with a registry that does not know the connection's data type. -/
def demoWorldUnregistered : DemoWorld := { demoWorld with registered := false }

/-- The same world with node `3` under the cursor, accepting the connection. -/
def demoWorldOverNode : DemoWorld := { demoWorld with located := some 3, connects := true }

/-- The same world with node `3` under the cursor, refusing the connection. -/
def demoWorldOverBusyNode : DemoWorld := { demoWorld with located := some 3, connects := false }

/-- The graphics object of connection `7`. -/
def demoSelf : ConnectionGraphicsObject := ⟨7⟩

/-- A mouse event at scene position `(250, 80)`. -/
def demoMouse : QGraphicsSceneMouseEvent where
  pos := ⟨5, 9⟩
  lastPos := ⟨2, 3⟩
  scenePos := ⟨250, 80⟩
  widget := ⟨⟨1, 0, 0, 0, 1, 0, 0, 0, 1⟩⟩

end QtNodes

namespace QtNodes

/-! ## mouseReleaseEvent: discarding the connection -/

/-- C1. Default build (ALTAG not defined): when no node is located under the cursor and the
connection state requires a port, `mouseReleaseEvent` returns, its only calls are
`ungrabMouse`, `accept` and one `deleteConnection` on this connection; it issues exactly
one `deleteConnection`, no `createNode` and no `tryConnect`. -/
theorem mouseReleaseEvent_default_noNode_deletes {σ : Type} (c : Collaborators σ)
    (self : ConnectionGraphicsObject) (event : QGraphicsSceneMouseEvent) (s : σ)
    (view0 : QGraphicsView) (rest : List QGraphicsView)
    (hviews : c.views (c.accept (c.ungrabMouse s)) = view0 :: rest)
    (hnode : c.locateNodeAt (c.accept (c.ungrabMouse s)) event.scenePos view0.transform = none)
    (hreq : c.requiresPort (c.accept (c.ungrabMouse s)) self._connection = true) :
    ∃ r, mouseReleaseEvent c false self event s = some r ∧
      r.log = [Call.ungrabMouse, Call.accept, Call.deleteConnection self._connection] ∧
      r.state = c.deleteConnection (c.accept (c.ungrabMouse s)) self._connection ∧
      r.log.count (Call.deleteConnection self._connection) = 1 ∧
      r.log.countP Call.isDeleteConnection = 1 ∧
      r.log.countP Call.isCreateNode = 0 ∧
      r.log.countP Call.isTryConnect = 0 := by
  refine ⟨⟨[Call.ungrabMouse, Call.accept, Call.deleteConnection self._connection],
    c.deleteConnection (c.accept (c.ungrabMouse s)) self._connection⟩, ?_, rfl, rfl, ?_, ?_, ?_, ?_⟩
  · simp [mouseReleaseEvent, Run.call, hviews, hnode, hreq]
  · simp [List.count_cons]
  · simp [List.countP_cons, Call.isDeleteConnection]
  · simp [List.countP_cons, Call.isCreateNode]
  · simp [List.countP_cons, Call.isTryConnect]

/-- C2. ALTAG build: when no node is located under the cursor, the connection requires an
Out port and the registry creates no model for the connection's data-type id,
`mouseReleaseEvent` returns, its only calls are `ungrabMouse`, `accept` and one
`deleteConnection` on this connection; it issues no `createNode` and no `tryConnect`. -/
theorem mouseReleaseEvent_altag_unknownType_deletes {σ : Type} (c : Collaborators σ)
    (self : ConnectionGraphicsObject) (event : QGraphicsSceneMouseEvent) (s : σ)
    (view0 : QGraphicsView) (rest : List QGraphicsView)
    (hviews : c.views (c.accept (c.ungrabMouse s)) = view0 :: rest)
    (hnode : c.locateNodeAt (c.accept (c.ungrabMouse s)) event.scenePos view0.transform = none)
    (hport : c.requiredPort (c.accept (c.ungrabMouse s)) self._connection = PortType.Out)
    (htype : c.registryCreate (c.accept (c.ungrabMouse s))
      (c.dataType (c.accept (c.ungrabMouse s)) self._connection).id = none) :
    ∃ r, mouseReleaseEvent c true self event s = some r ∧
      r.log = [Call.ungrabMouse, Call.accept, Call.deleteConnection self._connection] ∧
      r.state = c.deleteConnection (c.accept (c.ungrabMouse s)) self._connection ∧
      r.log.count (Call.deleteConnection self._connection) = 1 ∧
      r.log.countP Call.isDeleteConnection = 1 ∧
      r.log.countP Call.isCreateNode = 0 ∧
      r.log.countP Call.isTryConnect = 0 := by
  refine ⟨⟨[Call.ungrabMouse, Call.accept, Call.deleteConnection self._connection],
    c.deleteConnection (c.accept (c.ungrabMouse s)) self._connection⟩, ?_, rfl, rfl, ?_, ?_, ?_, ?_⟩
  · simp [mouseReleaseEvent, Run.call, hviews, hnode, hport, htype]
  · simp [List.count_cons]
  · simp [List.countP_cons, Call.isDeleteConnection]
  · simp [List.countP_cons, Call.isCreateNode]
  · simp [List.countP_cons, Call.isTryConnect]

/-! ## mouseReleaseEvent: a node under the cursor -/

/-- The result of `mouseReleaseEvent` in the default build when node `n` is located:
`tryConnect` runs on the interaction with `n`, then the if-chain picks one branch. -/
theorem mouseReleaseEvent_default_node_eq {σ : Type} (c : Collaborators σ)
    (self : ConnectionGraphicsObject) (event : QGraphicsSceneMouseEvent) (s : σ)
    (view0 : QGraphicsView) (rest : List QGraphicsView) (n : Node)
    (hviews : c.views (c.accept (c.ungrabMouse s)) = view0 :: rest)
    (hnode : c.locateNodeAt (c.accept (c.ungrabMouse s)) event.scenePos view0.transform = some n) :
    mouseReleaseEvent c false self event s =
      some (
        if (c.tryConnect (c.accept (c.ungrabMouse s)) ⟨some n, self._connection⟩).1 = true then
          ⟨[Call.ungrabMouse, Call.accept, Call.tryConnect ⟨some n, self._connection⟩,
              Call.resetReactionToConnection (some n)],
            c.resetReactionToConnection
              (c.tryConnect (c.accept (c.ungrabMouse s)) ⟨some n, self._connection⟩).2 (some n)⟩
        else if c.requiresPort
            (c.tryConnect (c.accept (c.ungrabMouse s)) ⟨some n, self._connection⟩).2
            self._connection = true then
          ⟨[Call.ungrabMouse, Call.accept, Call.tryConnect ⟨some n, self._connection⟩,
              Call.deleteConnection self._connection],
            c.deleteConnection
              (c.tryConnect (c.accept (c.ungrabMouse s)) ⟨some n, self._connection⟩).2
              self._connection⟩
        else
          ⟨[Call.ungrabMouse, Call.accept, Call.tryConnect ⟨some n, self._connection⟩],
            (c.tryConnect (c.accept (c.ungrabMouse s)) ⟨some n, self._connection⟩).2⟩) := by
  simp only [mouseReleaseEvent, Run.call, hviews, hnode]
  by_cases hok : (c.tryConnect (c.accept (c.ungrabMouse s)) ⟨some n, self._connection⟩).1 = true
  · simp [hok]
  · by_cases hreq : c.requiresPort
        (c.tryConnect (c.accept (c.ungrabMouse s)) ⟨some n, self._connection⟩).2
        self._connection = true
    · simp [hok, hreq]
    · simp [hok, hreq]

/-- C3. Default build, node `n` located under the cursor: `mouseReleaseEvent` returns;
`resetReactionToConnection` is called on `n` if and only if `tryConnect` on the
interaction with `n` succeeds; `deleteConnection` is called on this connection if and
only if that `tryConnect` fails and afterwards the connection state requires a port;
the two calls never both occur, and each occurs at most once. The world is left as the
chosen call leaves it: the state after `tryConnect` with the node's reaction reset, or
with the connection deleted from the scene, or unchanged when neither applies. -/
theorem mouseReleaseEvent_default_node_reset_xor_delete {σ : Type} (c : Collaborators σ)
    (self : ConnectionGraphicsObject) (event : QGraphicsSceneMouseEvent) (s : σ)
    (view0 : QGraphicsView) (rest : List QGraphicsView) (n : Node)
    (hviews : c.views (c.accept (c.ungrabMouse s)) = view0 :: rest)
    (hnode : c.locateNodeAt (c.accept (c.ungrabMouse s)) event.scenePos view0.transform = some n) :
    ∃ r, mouseReleaseEvent c false self event s = some r ∧
      (Call.resetReactionToConnection (some n) ∈ r.log ↔
        (c.tryConnect (c.accept (c.ungrabMouse s)) ⟨some n, self._connection⟩).1 = true) ∧
      (Call.deleteConnection self._connection ∈ r.log ↔
        ((c.tryConnect (c.accept (c.ungrabMouse s)) ⟨some n, self._connection⟩).1 = false ∧
          c.requiresPort
            (c.tryConnect (c.accept (c.ungrabMouse s)) ⟨some n, self._connection⟩).2
            self._connection = true)) ∧
      ¬ (r.log.any Call.isResetReaction = true ∧ r.log.any Call.isDeleteConnection = true) ∧
      r.log.countP Call.isResetReaction =
        (if (c.tryConnect (c.accept (c.ungrabMouse s)) ⟨some n, self._connection⟩).1 = true
          then 1 else 0) ∧
      r.log.countP Call.isDeleteConnection =
        (if (c.tryConnect (c.accept (c.ungrabMouse s)) ⟨some n, self._connection⟩).1 = false ∧
          c.requiresPort
            (c.tryConnect (c.accept (c.ungrabMouse s)) ⟨some n, self._connection⟩).2
            self._connection = true
          then 1 else 0) ∧
      r.state =
        (if (c.tryConnect (c.accept (c.ungrabMouse s)) ⟨some n, self._connection⟩).1 = true then
          c.resetReactionToConnection
            (c.tryConnect (c.accept (c.ungrabMouse s)) ⟨some n, self._connection⟩).2 (some n)
        else if c.requiresPort
            (c.tryConnect (c.accept (c.ungrabMouse s)) ⟨some n, self._connection⟩).2
            self._connection = true then
          c.deleteConnection
            (c.tryConnect (c.accept (c.ungrabMouse s)) ⟨some n, self._connection⟩).2
            self._connection
        else
          (c.tryConnect (c.accept (c.ungrabMouse s)) ⟨some n, self._connection⟩).2) := by
  refine ⟨_, mouseReleaseEvent_default_node_eq c self event s view0 rest n hviews hnode, ?_⟩
  by_cases hok : (c.tryConnect (c.accept (c.ungrabMouse s)) ⟨some n, self._connection⟩).1 = true
  · simp [hok, List.countP_cons, Call.isResetReaction, Call.isDeleteConnection]
  · by_cases hreq : c.requiresPort
        (c.tryConnect (c.accept (c.ungrabMouse s)) ⟨some n, self._connection⟩).2
        self._connection = true
    · simp [hok, hreq, List.countP_cons, Call.isResetReaction, Call.isDeleteConnection]
    · simp [hok, hreq, List.countP_cons, Call.isResetReaction, Call.isDeleteConnection]

/-! ## mouseReleaseEvent: spawning a node on drop (ALTAG build) -/

/-- The result of `mouseReleaseEvent` in the ALTAG build when it spawns a node: the node is
created, its data model and the scene position of the scanned port are read, the node is
moved, and `tryConnect` runs on the interaction with the new node. -/
theorem mouseReleaseEvent_altag_spawn_eq {σ : Type} (c : Collaborators σ)
    (self : ConnectionGraphicsObject) (event : QGraphicsSceneMouseEvent) (s : σ)
    (view0 : QGraphicsView) (rest : List QGraphicsView) (type : NodeDataModel)
    (hviews : c.views (c.accept (c.ungrabMouse s)) = view0 :: rest)
    (hnode : c.locateNodeAt (c.accept (c.ungrabMouse s)) event.scenePos view0.transform = none)
    (hport : c.requiredPort (c.accept (c.ungrabMouse s)) self._connection = PortType.Out)
    (htype : c.registryCreate (c.accept (c.ungrabMouse s))
      (c.dataType (c.accept (c.ungrabMouse s)) self._connection).id = some type) :
    let created := c.createNode (c.accept (c.ungrabMouse s)) type
    let nodeCrea : NodePtr := some created.1
    let pid := portScan (c.nodeDataModel created.2 nodeCrea)
      (c.dataType created.2 self._connection).id
    let pos := c.portScenePosition created.2 nodeCrea pid PortType.Out
    let newPos : QPointF := ⟨event.scenePos.x - pos.x, event.scenePos.y - pos.y⟩
    mouseReleaseEvent c true self event s =
      some ⟨[Call.ungrabMouse, Call.accept, Call.createNode nodeCrea,
          Call.nodeDataModel nodeCrea, Call.portScenePosition nodeCrea pid PortType.Out,
          Call.setPos nodeCrea newPos, Call.tryConnect ⟨nodeCrea, self._connection⟩],
        (c.tryConnect (c.setPos created.2 nodeCrea newPos) ⟨nodeCrea, self._connection⟩).2⟩ := by
  simp [mouseReleaseEvent, Run.call, hviews, hnode, hport, htype]

/-- C9. ALTAG build, spawning release (no node under the cursor, required port Out, the
registry creates a model): `mouseReleaseEvent` returns, creates exactly one node, calls
`tryConnect` exactly once, on the interaction with the new node, and never calls
`deleteConnection`. `tryConnect` is the last call and its result is not consulted: the
world is left as `createNode`, then `setPos` on the new node, then `tryConnect` leave it,
whether `tryConnect` succeeded or failed, with nothing removed afterwards. -/
theorem mouseReleaseEvent_altag_spawn_keeps_connection {σ : Type} (c : Collaborators σ)
    (self : ConnectionGraphicsObject) (event : QGraphicsSceneMouseEvent) (s : σ)
    (view0 : QGraphicsView) (rest : List QGraphicsView) (type : NodeDataModel)
    (hviews : c.views (c.accept (c.ungrabMouse s)) = view0 :: rest)
    (hnode : c.locateNodeAt (c.accept (c.ungrabMouse s)) event.scenePos view0.transform = none)
    (hport : c.requiredPort (c.accept (c.ungrabMouse s)) self._connection = PortType.Out)
    (htype : c.registryCreate (c.accept (c.ungrabMouse s))
      (c.dataType (c.accept (c.ungrabMouse s)) self._connection).id = some type) :
    let created := c.createNode (c.accept (c.ungrabMouse s)) type
    let nodeCrea : NodePtr := some created.1
    let pid := portScan (c.nodeDataModel created.2 nodeCrea)
      (c.dataType created.2 self._connection).id
    let pos := c.portScenePosition created.2 nodeCrea pid PortType.Out
    let newPos : QPointF := ⟨event.scenePos.x - pos.x, event.scenePos.y - pos.y⟩
    ∃ r, mouseReleaseEvent c true self event s = some r ∧
      r.log.countP Call.isCreateNode = 1 ∧
      r.log.count (Call.createNode nodeCrea) = 1 ∧
      r.log.countP Call.isTryConnect = 1 ∧
      r.log.count (Call.tryConnect ⟨nodeCrea, self._connection⟩) = 1 ∧
      r.log.getLast? = some (Call.tryConnect ⟨nodeCrea, self._connection⟩) ∧
      r.log.countP Call.isDeleteConnection = 0 ∧
      r.log = [Call.ungrabMouse, Call.accept, Call.createNode nodeCrea,
        Call.nodeDataModel nodeCrea, Call.portScenePosition nodeCrea pid PortType.Out,
        Call.setPos nodeCrea newPos, Call.tryConnect ⟨nodeCrea, self._connection⟩] ∧
      r.state =
        (c.tryConnect (c.setPos created.2 nodeCrea newPos) ⟨nodeCrea, self._connection⟩).2 := by
  intro created nodeCrea pid pos newPos
  refine ⟨_, mouseReleaseEvent_altag_spawn_eq c self event s view0 rest type
    hviews hnode hport htype, ?_⟩
  refine ⟨?_, ?_, ?_, ?_, ?_, ?_, rfl, rfl⟩ <;>
    simp [List.countP_cons, List.count_cons, Call.isCreateNode, Call.isTryConnect,
      Call.isDeleteConnection, created, nodeCrea]

/-- C6. ALTAG build, spawning release: the only `setPos` call is on the new node, it is
applied to the world right after the node is created and before `tryConnect` runs, and
the position it is given, added componentwise to the port scene position of the scanned
Out port `pid` (as read before the move), is the event scene position. -/
theorem mouseReleaseEvent_altag_spawn_position {σ : Type} (c : Collaborators σ)
    (self : ConnectionGraphicsObject) (event : QGraphicsSceneMouseEvent) (s : σ)
    (view0 : QGraphicsView) (rest : List QGraphicsView) (type : NodeDataModel)
    (hviews : c.views (c.accept (c.ungrabMouse s)) = view0 :: rest)
    (hnode : c.locateNodeAt (c.accept (c.ungrabMouse s)) event.scenePos view0.transform = none)
    (hport : c.requiredPort (c.accept (c.ungrabMouse s)) self._connection = PortType.Out)
    (htype : c.registryCreate (c.accept (c.ungrabMouse s))
      (c.dataType (c.accept (c.ungrabMouse s)) self._connection).id = some type) :
    let created := c.createNode (c.accept (c.ungrabMouse s)) type
    let nodeCrea : NodePtr := some created.1
    let pid := portScan (c.nodeDataModel created.2 nodeCrea)
      (c.dataType created.2 self._connection).id
    ∃ r newPos, mouseReleaseEvent c true self event s = some r ∧
      r.log.filter Call.isSetPos = [Call.setPos nodeCrea newPos] ∧
      r.state =
        (c.tryConnect (c.setPos created.2 nodeCrea newPos) ⟨nodeCrea, self._connection⟩).2 ∧
      newPos + c.portScenePosition created.2 nodeCrea pid PortType.Out = event.scenePos := by
  intro created nodeCrea pid
  refine ⟨_,
    ⟨event.scenePos.x - (c.portScenePosition created.2 nodeCrea pid PortType.Out).x,
      event.scenePos.y - (c.portScenePosition created.2 nodeCrea pid PortType.Out).y⟩,
    mouseReleaseEvent_altag_spawn_eq c self event s view0 rest type
      hviews hnode hport htype, ?_, rfl, ?_⟩
  · simp [List.filter_cons, Call.isSetPos, created, nodeCrea, pid]
  · show QPointF.mk _ _ = event.scenePos
    cases hev : event.scenePos with
    | mk ex ey => simp

/-- C10. With at least one view in the scene and no node located under the cursor, in
either build, `mouseReleaseEvent` returns and its log holds no call through the null node
pointer and no `tryConnect` on the interaction built from it. -/
theorem mouseReleaseEvent_noNode_never_uses_null {σ : Type} (c : Collaborators σ)
    (ALTAG : Bool) (self : ConnectionGraphicsObject) (event : QGraphicsSceneMouseEvent) (s : σ)
    (view0 : QGraphicsView) (rest : List QGraphicsView)
    (hviews : c.views (c.accept (c.ungrabMouse s)) = view0 :: rest)
    (hnode : c.locateNodeAt (c.accept (c.ungrabMouse s)) event.scenePos view0.transform = none) :
    ∃ r, mouseReleaseEvent c ALTAG self event s = some r ∧
      (∀ call ∈ r.log, Call.usesNode none call = false) ∧
      Call.tryConnect ⟨none, self._connection⟩ ∉ r.log ∧
      Call.resetReactionToConnection none ∉ r.log := by
  simp only [mouseReleaseEvent, Run.call, hviews, hnode]
  cases ALTAG
  · by_cases hreq : c.requiresPort (c.accept (c.ungrabMouse s)) self._connection = true
    · simp [hreq, Call.usesNode]
    · simp [hreq, Call.usesNode]
  · by_cases hport : c.requiredPort (c.accept (c.ungrabMouse s)) self._connection = PortType.Out
    · cases htype : c.registryCreate (c.accept (c.ungrabMouse s))
        (c.dataType (c.accept (c.ungrabMouse s)) self._connection).id with
      | none => simp [hport, htype, Call.usesNode]
      | some type => simp [hport, htype, Call.usesNode]
    · by_cases hreq : c.requiresPort (c.accept (c.ungrabMouse s)) self._connection = true
      · simp [hport, hreq, Call.usesNode]
      · simp [hport, hreq, Call.usesNode]

/-! ## The port scan -/

/-- The scan loop over the first `n` indices, for an arbitrary match test `f`. -/
theorem scan_foldl_spec (f : Nat → Bool) (n : Nat) :
    ((∀ i, i < n → f i = false) ∧
        (List.range n).foldl (fun (pid : Int) i => if f i then (i : Int) else pid) 0 = 0) ∨
      ∃ k, k < n ∧ f k = true ∧
        (List.range n).foldl (fun (pid : Int) i => if f i then (i : Int) else pid) 0 = (k : Int) ∧
        ∀ j, k < j → j < n → f j = false := by
  induction n with
  | zero => left; simp
  | succ n ih =>
    rw [List.range_succ, List.foldl_append]
    simp only [List.foldl_cons, List.foldl_nil]
    cases hn : f n with
    | true =>
      right
      refine ⟨n, Nat.lt_succ_self n, hn, by simp, ?_⟩
      intro j h1 h2
      omega
    | false =>
      rcases ih with ⟨hall, h0⟩ | ⟨k, hk, hfk, hval, hgt⟩
      · left
        refine ⟨?_, by simpa using h0⟩
        intro i hi
        rcases Nat.lt_succ_iff_lt_or_eq.mp hi with h | h
        · exact hall i h
        · rw [h]; exact hn
      · right
        refine ⟨k, Nat.lt_succ_of_lt hk, hfk, by simpa using hval, ?_⟩
        intro j h1 h2
        rcases Nat.lt_succ_iff_lt_or_eq.mp h2 with h | h
        · exact hgt j h1 h
        · rw [h]; exact hn

/-- The port scan, characterised: either no Out port index matches and the result is `0`,
or the result is a matching Out port index and no greater index matches. -/
theorem portScan_spec (ndm : NodeDataModel) (id : QString) :
    ((∀ i : Int, 0 ≤ i → i < ndm.nPorts PortType.Out →
          (ndm.dataType PortType.Out i).id ≠ id) ∧ portScan ndm id = 0) ∨
      (0 ≤ portScan ndm id ∧ portScan ndm id < ndm.nPorts PortType.Out ∧
        (ndm.dataType PortType.Out (portScan ndm id)).id = id ∧
        ∀ j : Int, portScan ndm id < j → j < ndm.nPorts PortType.Out →
          (ndm.dataType PortType.Out j).id ≠ id) := by
  have key := scan_foldl_spec (fun i => (ndm.dataType PortType.Out (i : Int)).id == id)
    (ndm.nPorts PortType.Out).toNat
  rcases key with ⟨hall, h0⟩ | ⟨k, hk, hfk, hval, hgt⟩
  · left
    refine ⟨?_, h0⟩
    intro i hi0 hin
    have h := hall i.toNat (by omega)
    have hi : ((i.toNat : Nat) : Int) = i := Int.toNat_of_nonneg hi0
    simp only [hi] at h
    simpa using h
  · right
    have hpid : portScan ndm id = (k : Int) := hval
    rw [hpid]
    refine ⟨by omega, by omega, by simpa using hfk, ?_⟩
    intro j hj1 hj2
    have h := hgt j.toNat (by omega) (by omega)
    have hj : ((j.toNat : Nat) : Int) = j := Int.toNat_of_nonneg (by omega)
    simp only [hj] at h
    simpa using h

/-- C8. The port scan returns the greatest Out port index in `[0, nPorts(Out))` whose
data-type id equals the given id: when some index matches, the result is a matching index
in range and every matching index in range is at most the result; when no index in range
matches (in particular when there is no Out port), the result is `0`. -/
theorem portScan_greatest_match_or_zero (ndm : NodeDataModel) (id : QString) :
    ((∃ i : Int, 0 ≤ i ∧ i < ndm.nPorts PortType.Out ∧
          (ndm.dataType PortType.Out i).id = id) →
        (0 ≤ portScan ndm id ∧ portScan ndm id < ndm.nPorts PortType.Out ∧
          (ndm.dataType PortType.Out (portScan ndm id)).id = id ∧
          ∀ i : Int, 0 ≤ i → i < ndm.nPorts PortType.Out →
            (ndm.dataType PortType.Out i).id = id → i ≤ portScan ndm id)) ∧
      ((∀ i : Int, 0 ≤ i → i < ndm.nPorts PortType.Out →
          (ndm.dataType PortType.Out i).id ≠ id) → portScan ndm id = 0) ∧
      (ndm.nPorts PortType.Out ≤ 0 → portScan ndm id = 0) := by
  rcases portScan_spec ndm id with ⟨hall, h0⟩ | ⟨h1, h2, h3, h4⟩
  · refine ⟨?_, fun _ => h0, fun _ => h0⟩
    rintro ⟨i, hi0, hin, hid⟩
    exact absurd hid (hall i hi0 hin)
  · refine ⟨fun _ => ⟨h1, h2, h3, ?_⟩, ?_, ?_⟩
    · intro i _ hin hid
      by_contra hlt
      exact h4 i (by omega) hin hid
    · intro hall
      exact absurd h3 (hall _ h1 h2)
    · intro hle
      omega

/-- C7 (amended). Spawning release in the ALTAG build: the scanned index `pid` is the one
passed to `portScenePosition` on the new node, and when the new node's data model has an
Out port whose data-type id equals the connection's, `pid` is a valid Out port index of
the new node and the data-type id of that port equals the connection's. -/
theorem mouseReleaseEvent_altag_spawn_pid_compatible {σ : Type} (c : Collaborators σ)
    (self : ConnectionGraphicsObject) (event : QGraphicsSceneMouseEvent) (s : σ)
    (view0 : QGraphicsView) (rest : List QGraphicsView) (type : NodeDataModel)
    (hviews : c.views (c.accept (c.ungrabMouse s)) = view0 :: rest)
    (hnode : c.locateNodeAt (c.accept (c.ungrabMouse s)) event.scenePos view0.transform = none)
    (hport : c.requiredPort (c.accept (c.ungrabMouse s)) self._connection = PortType.Out)
    (htype : c.registryCreate (c.accept (c.ungrabMouse s))
      (c.dataType (c.accept (c.ungrabMouse s)) self._connection).id = some type)
    (hmatch : ∃ i : Int, 0 ≤ i ∧
      i < (c.nodeDataModel (c.createNode (c.accept (c.ungrabMouse s)) type).2
        (some (c.createNode (c.accept (c.ungrabMouse s)) type).1)).nPorts PortType.Out ∧
      ((c.nodeDataModel (c.createNode (c.accept (c.ungrabMouse s)) type).2
        (some (c.createNode (c.accept (c.ungrabMouse s)) type).1)).dataType PortType.Out i).id =
        (c.dataType (c.createNode (c.accept (c.ungrabMouse s)) type).2 self._connection).id) :
    let created := c.createNode (c.accept (c.ungrabMouse s)) type
    let nodeCrea : NodePtr := some created.1
    let ndm := c.nodeDataModel created.2 nodeCrea
    let connId := (c.dataType created.2 self._connection).id
    ∃ r pid, mouseReleaseEvent c true self event s = some r ∧
      Call.portScenePosition nodeCrea pid PortType.Out ∈ r.log ∧
      pid = portScan ndm connId ∧
      0 ≤ pid ∧ pid < ndm.nPorts PortType.Out ∧
      (ndm.dataType PortType.Out pid).id = connId := by
  intro created nodeCrea ndm connId
  refine ⟨_, portScan ndm connId, mouseReleaseEvent_altag_spawn_eq c self event s view0 rest type
    hviews hnode hport htype, ?_, rfl, ?_⟩
  · simp [created, nodeCrea, ndm, connId]
  · rcases portScan_spec ndm connId with ⟨hall, _⟩ | ⟨h1, h2, h3, _⟩
    · obtain ⟨i, hi0, hin, hid⟩ := hmatch
      exact absurd hid (hall i hi0 hin)
    · exact ⟨h1, h2, h3⟩

/-! ## mouseMoveEvent -/

/-- The first section of `mouseMoveEvent` issues no `moveEndPoint`. -/
theorem mouseMoveEvent_interact_no_move {σ : Type} (c : Collaborators σ)
    (self : ConnectionGraphicsObject) (event : QGraphicsSceneMouseEvent) (s : σ) :
    (mouseMoveEvent_interact c self event s).log.filter Call.isMoveEndPoint = [] := by
  unfold mouseMoveEvent_interact
  simp only [Run.call]
  split <;> simp [List.filter_cons, Call.isMoveEndPoint]

/-- C4. For every mouse move event, with `requiredPort` the connection's required port as
read by the handler: when it is not `None`, `mouseMoveEvent` issues exactly one
`moveEndPoint`, for that port and with offset `event.pos - event.lastPos`, and when it is
`None` it issues no `moveEndPoint`; in both cases no `moveEndPoint` is issued for any
other port or offset. -/
theorem mouseMoveEvent_moves_required_end_point {σ : Type} (c : Collaborators σ)
    (self : ConnectionGraphicsObject) (event : QGraphicsSceneMouseEvent) (s : σ) :
    let before := mouseMoveEvent_interact c self event s
    let requiredPort := c.requiredPort before.state self._connection
    let offset : QPointF := event.pos - event.lastPos
    (mouseMoveEvent c self event s).log.filter Call.isMoveEndPoint =
        (if requiredPort = PortType.None then []
          else [Call.moveEndPoint self._connection requiredPort offset]) ∧
      (mouseMoveEvent c self event s).log.countP Call.isMoveEndPoint =
        (if requiredPort = PortType.None then 0 else 1) ∧
      (∀ conn port off, Call.moveEndPoint conn port off ∈ (mouseMoveEvent c self event s).log →
        requiredPort ≠ PortType.None ∧ conn = self._connection ∧ port = requiredPort ∧
          off = offset) ∧
      (mouseMoveEvent c self event s).state =
        c.accept (c.update
          (if requiredPort = PortType.None then before.state
            else c.moveEndPoint before.state self._connection requiredPort offset)) := by
  intro before requiredPort offset
  have hfilter : (mouseMoveEvent c self event s).log.filter Call.isMoveEndPoint =
      (if requiredPort = PortType.None then []
        else [Call.moveEndPoint self._connection requiredPort offset]) := by
    have h0 := mouseMoveEvent_interact_no_move c self event s
    unfold mouseMoveEvent
    simp only [Run.call]
    by_cases hp : requiredPort = PortType.None
    · have hp1 : c.requiredPort (mouseMoveEvent_interact c self event s).state
          self._connection = PortType.None := hp
      simp [hp, hp1, h0, List.filter_cons, Call.isMoveEndPoint]
    · have hp1 : ¬ c.requiredPort (mouseMoveEvent_interact c self event s).state
          self._connection = PortType.None := hp
      simp [hp, hp1, h0, List.filter_cons, Call.isMoveEndPoint, requiredPort, offset, before]
  refine ⟨hfilter, ?_, ?_, ?_⟩
  · rw [List.countP_eq_length_filter, hfilter]
    split <;> simp
  · intro conn port off hmem
    have hmem2 : Call.moveEndPoint conn port off ∈
        (mouseMoveEvent c self event s).log.filter Call.isMoveEndPoint :=
      List.mem_filter.mpr ⟨hmem, rfl⟩
    rw [hfilter] at hmem2
    by_cases hp : requiredPort = PortType.None
    · simp [hp] at hmem2
    · simp only [hp, if_false, List.mem_singleton, Call.moveEndPoint.injEq] at hmem2
      exact ⟨hp, hmem2.1, hmem2.2.1, hmem2.2.2⟩
  · unfold mouseMoveEvent
    simp only [Run.call]
    by_cases hp : requiredPort = PortType.None
    · have hp1 : c.requiredPort (mouseMoveEvent_interact c self event s).state
          self._connection = PortType.None := hp
      simp [hp, hp1, before]
    · have hp1 : ¬ c.requiredPort (mouseMoveEvent_interact c self event s).state
          self._connection = PortType.None := hp
      simp [hp, hp1, requiredPort, offset, before]

/-! ## Hover events -/

/-- A hover handler logs exactly one scene notification, the one for its event. -/
theorem hoverEvent_log_notification {σ : Type} (c : Collaborators σ)
    (self : ConnectionGraphicsObject) (e : HoverEvent) (s : σ) :
    (hoverEvent c self e s).log.filter Call.isHoverNotification = [hoverNotification self e] := by
  cases e <;>
    simp [hoverEvent, hoverEnterEvent, hoverLeaveEvent, Run.call, hoverNotification,
      List.filter_cons, Call.isHoverNotification]

/-- After a hover handler the hovered flag tells which handler ran. -/
theorem hoverEvent_hovered {σ : Type} (c : Collaborators σ) (laws : HoverFlagLaws c)
    (self : ConnectionGraphicsObject) (e : HoverEvent) (s : σ) :
    c.hovered (hoverEvent c self e s).state self._connection = e.isEnter := by
  cases e <;>
    simp [hoverEvent, hoverEnterEvent, hoverLeaveEvent, Run.call, HoverEvent.isEnter,
      laws.hovered_setHovered, laws.hovered_update, laws.hovered_accept,
      laws.hovered_connectionHovered, laws.hovered_connectionHoverLeft]

/-- Delivering a sequence appends one notification per event, in order. -/
theorem deliverHover_notifications {σ : Type} (c : Collaborators σ)
    (self : ConnectionGraphicsObject) (evs : List HoverEvent) (r : Run σ) :
    (deliverHover c self evs r).log.filter Call.isHoverNotification =
      r.log.filter Call.isHoverNotification ++ evs.map (hoverNotification self) := by
  induction evs generalizing r with
  | nil => simp [deliverHover]
  | cons e es ih =>
    simp only [deliverHover]
    rw [ih]
    simp [List.filter_append, hoverEvent_log_notification]

/-- Delivering a sequence that ends with `e` ends with the handler of `e`. -/
theorem deliverHover_append_last {σ : Type} (c : Collaborators σ)
    (self : ConnectionGraphicsObject) (evs : List HoverEvent) (e : HoverEvent) (r : Run σ) :
    (deliverHover c self (evs ++ [e]) r).state =
      (hoverEvent c self e (deliverHover c self evs r).state).state := by
  induction evs generalizing r with
  | nil => simp [deliverHover]
  | cons e1 es ih =>
    rw [List.cons_append]
    simp only [deliverHover]
    exact ih _

/-- Delivering a sequence leaves the world as the calls of its handlers leave it. -/
theorem deliverHover_state {σ : Type} (c : Collaborators σ)
    (self : ConnectionGraphicsObject) (evs : List HoverEvent) (r : Run σ) :
    (deliverHover c self evs r).state =
      evs.foldl (fun w e => (hoverEvent c self e w).state) r.state := by
  induction evs generalizing r with
  | nil => simp [deliverHover]
  | cons e es ih =>
    simp only [deliverHover, List.foldl_cons]
    exact ih _

/-- The geometry model satisfies the frame conditions on the hovered flag. -/
theorem withGeometry_hoverFlagLaws {σ : Type} (c : Collaborators σ) :
    HoverFlagLaws (withGeometry c) where
  hovered_setHovered := fun w conn b => by
    simp [withGeometry, ConnectionGeometry.hovered, ConnectionGeometry.setHovered]
  hovered_update := fun _ _ => rfl
  hovered_accept := fun _ _ => rfl
  hovered_connectionHovered := fun _ _ _ _ => rfl
  hovered_connectionHoverLeft := fun _ _ _ => rfl

/-- C5. For every sequence of hover events delivered to the object: the scene notifications
in the log are exactly one per event, in order, `connectionHovered(this connection,
event.screenPos)` for each enter event and `connectionHoverLeft(this connection)` for each
leave event; the world is left as these calls leave it, each event applying `setHovered`
(true for enter, false for leave), `update`, its scene notification and `accept` in that
order; and, with the geometry's flag stored by `setHovered`, when the sequence is not
empty the hovered flag of this connection's geometry afterwards is true exactly when the
last event was delivered to `hoverEnterEvent`. -/
theorem deliverHover_flag_and_notifications {σ : Type} (c : Collaborators σ)
    (self : ConnectionGraphicsObject) (evs : List HoverEvent) (s : σ)
    (geometry : Connection → ConnectionGeometry) :
    (deliverHover c self evs ⟨[], s⟩).log.filter Call.isHoverNotification =
        evs.map (hoverNotification self) ∧
      (deliverHover c self evs ⟨[], s⟩).state =
        evs.foldl (fun w e =>
          match e with
          | HoverEvent.enter event =>
            c.accept (c.connectionHovered (c.update (c.setHovered w self._connection true))
              self._connection event.screenPos)
          | HoverEvent.leave _ =>
            c.accept (c.connectionHoverLeft (c.update (c.setHovered w self._connection false))
              self._connection)) s ∧
      ∀ last, evs.getLast? = some last →
        (((deliverHover (withGeometry c) self evs ⟨[], ⟨geometry, s⟩⟩).state.geometry
            self._connection).hovered = true ↔ last.isEnter = true) := by
  refine ⟨by simpa using deliverHover_notifications c self evs ⟨[], s⟩, ?_, ?_⟩
  · rw [deliverHover_state]
    congr 1
    funext w e
    cases e <;> rfl
  · intro last hlast
    obtain ⟨front, hfront⟩ : ∃ front, evs = front ++ [last] := by
      rcases List.eq_nil_or_concat evs with h | ⟨front, e, h⟩
      · simp [h] at hlast
      · refine ⟨front, ?_⟩
        rw [h] at hlast
        simp at hlast
        rw [h, hlast]
        simp
    have hflag := hoverEvent_hovered (withGeometry c) (withGeometry_hoverFlagLaws c) self last
      (deliverHover (withGeometry c) self front ⟨[], ⟨geometry, s⟩⟩).state
    rw [hfront, deliverHover_append_last]
    exact Eq.to_iff (congrArg (fun b => b = true) hflag)

/-! ## Concrete runs -/

/-- C1 at a concrete input: default build, nothing under the cursor, an Out port still
required; the release deletes connection `7` and does nothing else to the scene. -/
theorem mouseReleaseEvent_default_noNode_deletes_witness :
    demo.locateNodeAt (demo.accept (demo.ungrabMouse demoWorld)) demoMouse.scenePos
        (QGraphicsView.mk ⟨1, 0, 0, 0, 1, 0, 0, 0, 1⟩).transform = none ∧
      demo.requiresPort (demo.accept (demo.ungrabMouse demoWorld)) demoSelf._connection = true ∧
      ∃ r, mouseReleaseEvent demo false demoSelf demoMouse demoWorld = some r ∧
        r.log = [Call.ungrabMouse, Call.accept, Call.deleteConnection 7] ∧
        r.log.countP Call.isDeleteConnection = 1 ∧
        r.log.countP Call.isCreateNode = 0 ∧
        r.log.countP Call.isTryConnect = 0 :=
  ⟨rfl, rfl,
    (mouseReleaseEvent_default_noNode_deletes demo demoSelf demoMouse demoWorld
      ⟨⟨1, 0, 0, 0, 1, 0, 0, 0, 1⟩⟩ [] rfl rfl rfl).imp
      (fun _ h => ⟨h.1, h.2.1, h.2.2.2.2.1, h.2.2.2.2.2.1, h.2.2.2.2.2.2⟩)⟩

/-- C2 at a concrete input: ALTAG build, nothing under the cursor, Out port required, the
registry does not know data type `A`; the release deletes connection `7`. -/
theorem mouseReleaseEvent_altag_unknownType_deletes_witness :
    demo.requiredPort (demo.accept (demo.ungrabMouse demoWorldUnregistered))
        demoSelf._connection = PortType.Out ∧
      demo.registryCreate (demo.accept (demo.ungrabMouse demoWorldUnregistered))
        (demo.dataType (demo.accept (demo.ungrabMouse demoWorldUnregistered))
          demoSelf._connection).id = none ∧
      ∃ r, mouseReleaseEvent demo true demoSelf demoMouse demoWorldUnregistered = some r ∧
        r.log = [Call.ungrabMouse, Call.accept, Call.deleteConnection 7] ∧
        r.log.countP Call.isCreateNode = 0 ∧
        r.log.countP Call.isTryConnect = 0 :=
  ⟨rfl, rfl,
    (mouseReleaseEvent_altag_unknownType_deletes demo demoSelf demoMouse demoWorldUnregistered
      ⟨⟨1, 0, 0, 0, 1, 0, 0, 0, 1⟩⟩ [] rfl rfl rfl rfl).imp
      (fun _ h => ⟨h.1, h.2.1, h.2.2.2.2.2.1, h.2.2.2.2.2.2⟩)⟩

/-- C3 at concrete inputs: default build, node `3` under the cursor. When `tryConnect`
succeeds the node's reaction is reset and the connection stays in the scene; when it
fails with a port still required the connection is deleted from the scene and no
reaction is reset. -/
theorem mouseReleaseEvent_default_node_reset_xor_delete_witness :
    (∃ r, mouseReleaseEvent demo false demoSelf demoMouse demoWorldOverNode = some r ∧
        Call.resetReactionToConnection (some 3) ∈ r.log ∧
        Call.deleteConnection demoSelf._connection ∉ r.log ∧
        r.state.reactionsReset = 1 ∧ r.state.connectionAlive = true) ∧
      (∃ r, mouseReleaseEvent demo false demoSelf demoMouse demoWorldOverBusyNode = some r ∧
        Call.resetReactionToConnection (some 3) ∉ r.log ∧
        Call.deleteConnection demoSelf._connection ∈ r.log ∧
        r.state.reactionsReset = 0 ∧ r.state.connectionAlive = false) :=
  ⟨(mouseReleaseEvent_default_node_reset_xor_delete demo demoSelf demoMouse demoWorldOverNode
      ⟨⟨1, 0, 0, 0, 1, 0, 0, 0, 1⟩⟩ [] 3 rfl rfl).imp
      (fun _ h => ⟨h.1, h.2.1.mpr rfl, fun hd => Bool.noConfusion (h.2.2.1.mp hd).1,
        by rw [h.2.2.2.2.2.2]; rfl, by rw [h.2.2.2.2.2.2]; rfl⟩),
    (mouseReleaseEvent_default_node_reset_xor_delete demo demoSelf demoMouse
      demoWorldOverBusyNode ⟨⟨1, 0, 0, 0, 1, 0, 0, 0, 1⟩⟩ [] 3 rfl rfl).imp
      (fun _ h => ⟨h.1, fun hr => Bool.noConfusion (h.2.1.mp hr), h.2.2.1.mpr ⟨rfl, rfl⟩,
        by rw [h.2.2.2.2.2.2]; rfl, by rw [h.2.2.2.2.2.2]; rfl⟩)⟩

/-- C9 at a concrete input: ALTAG build, spawning release with a failing `tryConnect`;
`tryConnect` runs once, and afterwards the scene holds one more node, placed at
`(150, 30)`, and still holds the connection. -/
theorem mouseReleaseEvent_altag_spawn_keeps_connection_witness :
    (demo.tryConnect demoWorld ⟨some 0, demoSelf._connection⟩).1 = false ∧
      ∃ r, mouseReleaseEvent demo true demoSelf demoMouse demoWorld = some r ∧
        r.log.countP Call.isCreateNode = 1 ∧
        r.log.countP Call.isTryConnect = 1 ∧
        r.log.getLast? = some (Call.tryConnect ⟨some 0, 7⟩) ∧
        r.log.countP Call.isDeleteConnection = 0 ∧
        r.state.nodes = 1 ∧ r.state.connectionAlive = true ∧
        r.state.required = PortType.Out :=
  ⟨rfl,
    (mouseReleaseEvent_altag_spawn_keeps_connection demo demoSelf demoMouse demoWorld
      ⟨⟨1, 0, 0, 0, 1, 0, 0, 0, 1⟩⟩ [] demoModelAB rfl rfl rfl rfl).imp
      (fun _ h => ⟨h.1, h.2.1, h.2.2.2.1, h.2.2.2.2.2.1, h.2.2.2.2.2.2.1,
        by rw [h.2.2.2.2.2.2.2.2]; rfl, by rw [h.2.2.2.2.2.2.2.2]; rfl,
        by rw [h.2.2.2.2.2.2.2.2]; rfl⟩)⟩

/-- C6 at a concrete input: the spawned node `0` is placed at `(150, 30)`, which added to
the scene position `(100, 50)` of its scanned Out port `2` is the drop position
`(250, 80)`. -/
theorem mouseReleaseEvent_altag_spawn_position_witness :
    ∃ r, mouseReleaseEvent demo true demoSelf demoMouse demoWorld = some r ∧
      r.log.filter Call.isSetPos = [Call.setPos (some 0) ⟨150, 30⟩] ∧
      r.state.placed = some ⟨150, 30⟩ ∧
      (⟨150, 30⟩ : QPointF) + demo.portScenePosition demoWorld (some 0)
        (portScan demoModelAB "A") PortType.Out = ⟨250, 80⟩ := by
  obtain ⟨r, newPos, hr, hlog, hstate, hsum⟩ :=
    mouseReleaseEvent_altag_spawn_position demo demoSelf demoMouse demoWorld
      ⟨⟨1, 0, 0, 0, 1, 0, 0, 0, 1⟩⟩ [] demoModelAB rfl rfl rfl rfl
  have hpid : portScan demoModelAB "A" = 2 := by decide
  have hnew : newPos = ⟨150, 30⟩ := by
    have h2 : newPos + (⟨100, 50⟩ : QPointF) = ⟨250, 80⟩ := by
      have hm : demoWorld.model = demoModelAB := rfl
      have h3 := hsum
      simp only [demo, hm, hpid, demoMouse] at h3
      norm_num at h3
      exact h3
    cases newPos with
    | mk a b =>
      have h4 : QPointF.mk (a + 100) (b + 50) = ⟨250, 80⟩ := h2
      simp only [QPointF.mk.injEq] at h4
      have ha : a = 150 := by linarith [h4.1]
      have hb : b = 30 := by linarith [h4.2]
      rw [ha, hb]
  subst hnew
  refine ⟨r, hr, hlog, ?_, ?_⟩
  · rw [hstate]
    rfl
  · exact hsum

/-- C10 at a concrete input: ALTAG build, nothing under the cursor; no logged call goes
through the null node pointer. -/
theorem mouseReleaseEvent_noNode_never_uses_null_witness :
    ∃ r, mouseReleaseEvent demo true demoSelf demoMouse demoWorld = some r ∧
      (∀ call ∈ r.log, Call.usesNode none call = false) ∧
      Call.tryConnect ⟨none, 7⟩ ∉ r.log ∧
      Call.resetReactionToConnection none ∉ r.log :=
  mouseReleaseEvent_noNode_never_uses_null demo true demoSelf demoMouse demoWorld
    ⟨⟨1, 0, 0, 0, 1, 0, 0, 0, 1⟩⟩ [] rfl rfl

/-- C7 as stated fails: in the ALTAG build the release below spawns node `0` from a model
whose Out ports carry `B` and `C`, the connection carries `A`, the scan yields `pid = 0`,
the handler asks for the scene position of Out port `0`, and the data-type id of that
port is not the connection's. -/
theorem mouseReleaseEvent_altag_spawn_pid_incompatible :
    (mouseReleaseEvent demo true demoSelf demoMouse demoWorldBC).map Run.log =
        some [Call.ungrabMouse, Call.accept, Call.createNode (some 0),
          Call.nodeDataModel (some 0), Call.portScenePosition (some 0) 0 PortType.Out,
          Call.setPos (some 0) ⟨150, 70⟩, Call.tryConnect ⟨some 0, 7⟩] ∧
      (demo.dataType demoWorldBC demoSelf._connection).id = "A" ∧
      portScan demoModelBC "A" = 0 ∧
      ¬ (0 ≤ portScan demoModelBC "A" ∧
        portScan demoModelBC "A" < demoModelBC.nPorts PortType.Out ∧
        (demoModelBC.dataType PortType.Out (portScan demoModelBC "A")).id = "A") := by
  have h : portScan demoModelBC "A" = 0 := by decide
  refine ⟨?_, rfl, h, ?_⟩
  · rw [mouseReleaseEvent_altag_spawn_eq demo demoSelf demoMouse demoWorldBC _ _ demoModelBC
      rfl rfl rfl rfl]
    simp [demo, demoWorldBC, demoWorld, demoSelf, demoMouse, h]
    norm_num
  · rw [h]
    decide

/-- C7 (amended) at a concrete input: the spawned node's model has Out ports `B`, `A`, `A`;
the scanned index is `2`, a valid Out port carrying the connection's data type `A`. -/
theorem mouseReleaseEvent_altag_spawn_pid_compatible_witness :
    ∃ r pid, mouseReleaseEvent demo true demoSelf demoMouse demoWorld = some r ∧
      Call.portScenePosition (some 0) pid PortType.Out ∈ r.log ∧
      pid = portScan demoModelAB "A" ∧
      0 ≤ pid ∧ pid < demoModelAB.nPorts PortType.Out ∧
      (demoModelAB.dataType PortType.Out pid).id = "A" :=
  mouseReleaseEvent_altag_spawn_pid_compatible demo demoSelf demoMouse demoWorld
    ⟨⟨1, 0, 0, 0, 1, 0, 0, 0, 1⟩⟩ [] demoModelAB rfl rfl rfl rfl ⟨1, by decide, by decide, by decide⟩

/-- C8 at concrete inputs: with Out ports `B`, `A`, `A` the scan for `A` yields a matching
index that bounds every matching index; with Out ports `B`, `C` it yields `0`. -/
theorem portScan_greatest_match_or_zero_witness :
    (0 ≤ portScan demoModelAB "A" ∧ portScan demoModelAB "A" < demoModelAB.nPorts PortType.Out ∧
        (demoModelAB.dataType PortType.Out (portScan demoModelAB "A")).id = "A" ∧
        ∀ i : Int, 0 ≤ i → i < demoModelAB.nPorts PortType.Out →
          (demoModelAB.dataType PortType.Out i).id = "A" → i ≤ portScan demoModelAB "A") ∧
      portScan demoModelBC "A" = 0 :=
  ⟨(portScan_greatest_match_or_zero demoModelAB "A").1 ⟨1, by decide, by decide, by decide⟩,
    (portScan_greatest_match_or_zero demoModelBC "A").2.1 (by
      intro i h0 h2
      have hcases : i = 0 ∨ i = 1 := by
        have h2b : i < 2 := h2
        omega
      rcases hcases with h | h <;> rw [h] <;> decide)⟩

/-- C4 at a concrete input: the connection requires an Out port, the cursor moved from
`(2, 3)` to `(5, 9)`; the Out end point is moved once, by `(3, 6)`. -/
theorem mouseMoveEvent_moves_required_end_point_witness :
    (mouseMoveEvent demo demoSelf demoMouse demoWorld).log.filter Call.isMoveEndPoint =
      [Call.moveEndPoint 7 PortType.Out (⟨5, 9⟩ - ⟨2, 3⟩)] :=
  (mouseMoveEvent_moves_required_end_point demo demoSelf demoMouse demoWorld).1

/-- C5 at a concrete input: enter, leave, enter; the scene is notified three times, in
order, and the flag of connection `7` ends up set. -/
theorem deliverHover_flag_and_notifications_witness :
    (deliverHover demo demoSelf
        [HoverEvent.enter ⟨⟨10, 20⟩⟩, HoverEvent.leave ⟨⟨11, 21⟩⟩, HoverEvent.enter ⟨⟨12, 22⟩⟩]
        ⟨[], demoWorld⟩).log.filter Call.isHoverNotification =
        [Call.connectionHovered 7 ⟨10, 20⟩, Call.connectionHoverLeft 7,
          Call.connectionHovered 7 ⟨12, 22⟩] ∧
      (deliverHover demo demoSelf
        [HoverEvent.enter ⟨⟨10, 20⟩⟩, HoverEvent.leave ⟨⟨11, 21⟩⟩, HoverEvent.enter ⟨⟨12, 22⟩⟩]
        ⟨[], demoWorld⟩).state.notified = 3 ∧
      ((deliverHover (withGeometry demo) demoSelf
        [HoverEvent.enter ⟨⟨10, 20⟩⟩, HoverEvent.leave ⟨⟨11, 21⟩⟩, HoverEvent.enter ⟨⟨12, 22⟩⟩]
        ⟨[], ⟨fun _ => ⟨false⟩, demoWorld⟩⟩).state.geometry 7).hovered = true :=
  ⟨(deliverHover_flag_and_notifications demo demoSelf
      [HoverEvent.enter ⟨⟨10, 20⟩⟩, HoverEvent.leave ⟨⟨11, 21⟩⟩, HoverEvent.enter ⟨⟨12, 22⟩⟩]
      demoWorld (fun _ => ⟨false⟩)).1,
    by
      rw [(deliverHover_flag_and_notifications demo demoSelf
        [HoverEvent.enter ⟨⟨10, 20⟩⟩, HoverEvent.leave ⟨⟨11, 21⟩⟩, HoverEvent.enter ⟨⟨12, 22⟩⟩]
        demoWorld (fun _ => ⟨false⟩)).2.1]
      rfl,
    ((deliverHover_flag_and_notifications demo demoSelf
      [HoverEvent.enter ⟨⟨10, 20⟩⟩, HoverEvent.leave ⟨⟨11, 21⟩⟩, HoverEvent.enter ⟨⟨12, 22⟩⟩]
      demoWorld (fun _ => ⟨false⟩)).2.2 (HoverEvent.enter ⟨⟨12, 22⟩⟩) rfl).mpr rfl⟩

end QtNodes
